import Mathlib

/-!
Shallow embedding of `src/sentry/grouping/ingest/seer.py`: the decision
pipeline that gates, performs and reconciles a call to the Seer similarity
service during event ingest.

External collaborators (rate-limiter backend, circuit breaker, killswitch,
stacktrace-string computation, the Seer RPC itself and the GroupHash table)
are modelled as an explicit environment `Env`; observable side effects
(metrics, log lines, limiter consultations, the outbound request, ledger
lookups, captured exceptions) are modelled as an explicit effect trace.
-/

/-- One grouping variant (`BaseVariant`); only its `type` tag is read here. -/
structure BaseVariant where
  type : String
deriving DecidableEq, Repr

/-- The `variants` dict; only the `custom_fingerprint` and
`built_in_fingerprint` keys are ever read by this module. -/
structure Variants where
  custom_fingerprint : Option BaseVariant
  built_in_fingerprint : Option BaseVariant
deriving DecidableEq, Repr

/-- The fields of an ingested `Event` read or written by this module.
`stacktrace_string_field` models the transient `event.data["stacktrace_string"]`
scratch entry (`none` = key absent). -/
structure Event where
  event_id : String
  project_id : Nat
  platform : String
  fingerprint : List String
  primary_hash : String
  exception_type : Option String
  stacktrace_string_field : Option String
deriving DecidableEq, Repr

/-- The metadata block attached to a `GroupHash` row. -/
structure GroupHashMetadata where
  date_added : Nat
  seer_date_sent : Option Nat
  seer_event_sent : Option String
  seer_model : Option String
  seer_matched_grouphash : Option Nat
  seer_match_distance : Option Int
deriving DecidableEq, Repr

/-- A `GroupHash` ledger row. -/
structure GroupHash where
  id : Nat
  hash : String
  project_id : Nat
  metadata : Option GroupHashMetadata
deriving DecidableEq, Repr

/-- One entry of the Seer response (`SeerSimilarIssueData`). -/
structure SeerSimilarIssueData where
  parent_hash : String
  stacktrace_distance : Int
  should_group : Bool
deriving DecidableEq, Repr

/-- The `similar_issues_metadata` dict built by `get_seer_similar_issues`. -/
structure SimilarIssuesMetadata where
  results : List SeerSimilarIssueData
  similarity_model_version : String
deriving DecidableEq, Repr

/-- The outbound `SimilarIssuesEmbeddingsRequest` payload. -/
structure SimilarIssuesEmbeddingsRequest where
  event_id : String
  hash : String
  project_id : Nat
  stacktrace : String
  exception_type : Option String
  k : Nat
  referrer : String
  use_reranking : Bool
deriving DecidableEq, Repr

/-- Observable side effects of the pipeline.  `checkEvaluated` marks entry
into one of the gate sub-checks (control-flow instrumentation used to state
evaluation-order properties); the rest mirror metric increments, log lines,
limiter consultations, the outbound Seer request, the `GroupHash` ledger
lookup, and `sentry_sdk.capture_exception`. -/
inductive Effect where
  | checkEvaluated (name : String)
  | metricEligible (eligible : Bool) (blocker : String)
  | metricBackfill (backfilled : Bool)
  | metricDidCallSeer (call_made : Bool) (blocker : String)
  | logWarning (key : String)
  | logInfo (key : String)
  | isLimitedCall (key : String)
  | seerRequestSent (request : SimilarIssuesEmbeddingsRequest)
  | grouphashLookup (hash : String) (project_id : Nat)
  | capturedException (event_tag : String) (project_tag : Nat)
deriving DecidableEq, Repr

/-- The one exception kind this module itself can raise (indexing `[0]` into
an empty list in `maybe_check_seer_for_matching_grouphash`). -/
inductive PyError where
  | indexError
deriving DecidableEq, Repr

/-- Answers of all external collaborators for one ingest run: the
`event_content_has_stacktrace` utility, `SEER_INELIGIBLE_EVENT_PLATFORMS`,
the `sentry:similarity_backfill_completed` project option,
`has_too_many_contributing_frames`, `killswitch_enabled`,
`CircuitBreaker.should_allow_request`, `get_stacktrace_string_with_metrics`
(`none` models a `None` return), `ratelimiter.backend.is_limited` per key,
the `use_reranking` option, `filter_null_from_string`,
`get_similarity_data_from_seer` (`Except.error` models a raised exception),
and the `GroupHash` table contents. -/
structure Env where
  event_content_has_stacktrace : Bool
  seer_ineligible_platforms : List String
  backfill_completed : Bool
  too_many_frames : Bool
  killswitch_enabled : Bool
  circuit_allows_request : Bool
  stacktrace_string : Option String
  is_limited : String → Bool
  use_reranking : Bool
  filter_null_from_string : String → String
  seer_response : Except Unit (List SeerSimilarIssueData)
  grouphash_db : List GroupHash

/-- `SEER_SIMILARITY_MODEL_VERSION` (external configuration constant). -/
def SEER_SIMILARITY_MODEL_VERSION : String := "v0"

/-- The sentinel default fingerprint entry (the braces are escaped:
the string value is the two-brace default marker). -/
def DEFAULT_FINGERPRINT_MARKER : String := "\x7b\x7b default \x7d\x7d"

/-- The global rate-limit key. -/
def seerGlobalRateLimitKey : String := "seer:similarity:global-limit"

/-- The per-project rate-limit key. -/
def seerProjectRateLimitKey (project_id : Nat) : String :=
  "seer:similarity:project-" ++ toString project_id ++ "-limit"

/-- `record_did_call_seer_metric(call_made=..., blocker=...)`. -/
def record_did_call_seer_metric (call_made : Bool) (blocker : String) : Effect :=
  .metricDidCallSeer call_made blocker

/-- `_event_content_is_seer_eligible`. -/
def event_content_is_seer_eligible (env : Env) (event : Event) : Bool × List Effect :=
  if env.event_content_has_stacktrace = false then
    (false, [.checkEvaluated "event_content_is_seer_eligible",
             .metricEligible false "no-stacktrace"])
  else if env.seer_ineligible_platforms.contains event.platform then
    (false, [.checkEvaluated "event_content_is_seer_eligible",
             .metricEligible false "unsupported-platform"])
  else
    (true, [.checkEvaluated "event_content_is_seer_eligible",
            .metricEligible true "none"])

/-- `_project_has_similarity_grouping_enabled`. -/
def project_has_similarity_grouping_enabled (env : Env) : Bool × List Effect :=
  (env.backfill_completed,
   [.checkEvaluated "project_has_similarity_grouping_enabled",
    .metricBackfill env.backfill_completed])

/-- `_has_too_many_contributing_frames`. -/
def has_too_many_contributing_frames (env : Env) : Bool × List Effect :=
  if env.too_many_frames then
    (true, [.checkEvaluated "has_too_many_contributing_frames",
            record_did_call_seer_metric false "excess-frames"])
  else
    (false, [.checkEvaluated "has_too_many_contributing_frames"])

/-- The inline `killswitch_enabled(project.id, ReferrerOptions.INGEST, event)` call. -/
def killswitch_enabled_check (env : Env) : Bool × List Effect :=
  (env.killswitch_enabled, [.checkEvaluated "killswitch_enabled"])

/-- `_has_customized_fingerprint`. -/
def has_customized_fingerprint (event : Event) (variants : Variants) : Bool × List Effect :=
  if event.fingerprint.contains DEFAULT_FINGERPRINT_MARKER then
    if event.fingerprint.length = 1 then
      (false, [.checkEvaluated "has_customized_fingerprint"])
    else
      (true, [.checkEvaluated "has_customized_fingerprint",
              record_did_call_seer_metric false "hybrid-fingerprint"])
  else
    match variants.custom_fingerprint <|> variants.built_in_fingerprint with
    | some fingerprint_variant =>
        (true, [.checkEvaluated "has_customized_fingerprint",
                record_did_call_seer_metric false fingerprint_variant.type])
    | none => (false, [.checkEvaluated "has_customized_fingerprint"])

/-- `_circuit_breaker_broken`. -/
def circuit_breaker_broken (env : Env) : Bool × List Effect :=
  if !env.circuit_allows_request then
    (true, [.checkEvaluated "circuit_breaker_broken",
            .logWarning "should_call_seer_for_grouping.broken_circuit_breaker",
            record_did_call_seer_metric false "circuit-breaker"])
  else
    (false, [.checkEvaluated "circuit_breaker_broken"])

/-- `_has_empty_stacktrace_string`; on a non-empty string it caches the value
in `event.data["stacktrace_string"]`, returning the mutated event. -/
def has_empty_stacktrace_string (env : Env) (event : Event) :
    Bool × Event × List Effect :=
  match env.stacktrace_string with
  | none => (true, event, [.checkEvaluated "has_empty_stacktrace_string"])
  | some s =>
    if s = "" then
      (true, event, [.checkEvaluated "has_empty_stacktrace_string",
                     record_did_call_seer_metric false "empty-stacktrace-string"])
    else
      (false, { event with stacktrace_string_field := some s },
       [.checkEvaluated "has_empty_stacktrace_string"])

/-- `_ratelimiting_enabled`; the global key is consulted first and the
per-project key only when the global key was not limited. -/
def ratelimiting_enabled (env : Env) (project_id : Nat) : Bool × List Effect :=
  if env.is_limited seerGlobalRateLimitKey then
    (true, [.checkEvaluated "ratelimiting_enabled",
            .isLimitedCall seerGlobalRateLimitKey,
            .logWarning "should_call_seer_for_grouping.global_ratelimit_hit",
            record_did_call_seer_metric false "global-rate-limit"])
  else if env.is_limited (seerProjectRateLimitKey project_id) then
    (true, [.checkEvaluated "ratelimiting_enabled",
            .isLimitedCall seerGlobalRateLimitKey,
            .isLimitedCall (seerProjectRateLimitKey project_id),
            .logWarning "should_call_seer_for_grouping.project_ratelimit_hit",
            record_did_call_seer_metric false "project-rate-limit"])
  else
    (false, [.checkEvaluated "ratelimiting_enabled",
             .isLimitedCall seerGlobalRateLimitKey,
             .isLimitedCall (seerProjectRateLimitKey project_id)])

/-- Result of `should_call_seer_for_grouping`: the boolean decision, the
(possibly mutated) event, and the effect trace. -/
structure GateResult where
  eligible : Bool
  event : Event
  trace : List Effect
deriving Repr

/-- `should_call_seer_for_grouping`.  The content and backfill checks are
both evaluated before either can cause a return (mirroring the source
comment about gathering metrics on both); the remaining checks are the
short-circuiting `or` chain in its source order. -/
def should_call_seer_for_grouping (env : Env) (event : Event) (variants : Variants) :
    GateResult :=
  if !((event_content_is_seer_eligible env event).1 &&
       (project_has_similarity_grouping_enabled env).1) then
    { eligible := false, event := event,
      trace := (event_content_is_seer_eligible env event).2 ++
               (project_has_similarity_grouping_enabled env).2 }
  else if (has_customized_fingerprint event variants).1 then
    { eligible := false, event := event,
      trace := (event_content_is_seer_eligible env event).2 ++
               (project_has_similarity_grouping_enabled env).2 ++
               (has_customized_fingerprint event variants).2 }
  else if (has_too_many_contributing_frames env).1 then
    { eligible := false, event := event,
      trace := (event_content_is_seer_eligible env event).2 ++
               (project_has_similarity_grouping_enabled env).2 ++
               (has_customized_fingerprint event variants).2 ++
               (has_too_many_contributing_frames env).2 }
  else if (killswitch_enabled_check env).1 then
    { eligible := false, event := event,
      trace := (event_content_is_seer_eligible env event).2 ++
               (project_has_similarity_grouping_enabled env).2 ++
               (has_customized_fingerprint event variants).2 ++
               (has_too_many_contributing_frames env).2 ++
               (killswitch_enabled_check env).2 }
  else if (circuit_breaker_broken env).1 then
    { eligible := false, event := event,
      trace := (event_content_is_seer_eligible env event).2 ++
               (project_has_similarity_grouping_enabled env).2 ++
               (has_customized_fingerprint event variants).2 ++
               (has_too_many_contributing_frames env).2 ++
               (killswitch_enabled_check env).2 ++
               (circuit_breaker_broken env).2 }
  else if (has_empty_stacktrace_string env event).1 then
    { eligible := false, event := (has_empty_stacktrace_string env event).2.1,
      trace := (event_content_is_seer_eligible env event).2 ++
               (project_has_similarity_grouping_enabled env).2 ++
               (has_customized_fingerprint event variants).2 ++
               (has_too_many_contributing_frames env).2 ++
               (killswitch_enabled_check env).2 ++
               (circuit_breaker_broken env).2 ++
               (has_empty_stacktrace_string env event).2.2 }
  else if (ratelimiting_enabled env event.project_id).1 then
    { eligible := false, event := (has_empty_stacktrace_string env event).2.1,
      trace := (event_content_is_seer_eligible env event).2 ++
               (project_has_similarity_grouping_enabled env).2 ++
               (has_customized_fingerprint event variants).2 ++
               (has_too_many_contributing_frames env).2 ++
               (killswitch_enabled_check env).2 ++
               (circuit_breaker_broken env).2 ++
               (has_empty_stacktrace_string env event).2.2 ++
               (ratelimiting_enabled env event.project_id).2 }
  else
    { eligible := true, event := (has_empty_stacktrace_string env event).2.1,
      trace := (event_content_is_seer_eligible env event).2 ++
               (project_has_similarity_grouping_enabled env).2 ++
               (has_customized_fingerprint event variants).2 ++
               (has_too_many_contributing_frames env).2 ++
               (killswitch_enabled_check env).2 ++
               (circuit_breaker_broken env).2 ++
               (has_empty_stacktrace_string env event).2.2 ++
               (ratelimiting_enabled env event.project_id).2 }

/-- The effective stacktrace string seen by `get_seer_similar_issues`:
`event.data.get("stacktrace_string", get_stacktrace_string_with_metrics(...))`,
i.e. the cached scratch field when present, else a fresh computation. -/
def effectiveStacktraceString (env : Env) (event : Event) : Option String :=
  match event.stacktrace_string_field with
  | some s => some s
  | none => env.stacktrace_string

/-- Result of `get_seer_similar_issues`: the `(metadata, grouphash-or-None)`
pair (or a raised exception from the remote call), the possibly mutated
event, and the effect trace. -/
structure SimilarIssuesResult where
  response : Except Unit (SimilarIssuesMetadata × Option GroupHash)
  event : Event
  trace : List Effect
deriving Repr

/-- The `(similar_issues_metadata_empty, None)` early return of
`get_seer_similar_issues` for an empty stacktrace string. -/
def emptyStacktraceResult (event : Event) : SimilarIssuesResult :=
  { response := .ok ({ results := [],
                       similarity_model_version := SEER_SIMILARITY_MODEL_VERSION }, none),
    event := event,
    trace := [.logInfo "get_seer_similar_issues.empty_stacktrace"] }

/-- `get_seer_similar_issues`.  The `exception_type` is sanitized only when
truthy (a `None` or empty string yields `None`); the scratch field is popped
from the event just before the remote call; a non-empty result list triggers
one `GroupHash` lookup by the top result's parent hash in the event's
project. -/
def get_seer_similar_issues (env : Env) (event : Event) (num_neighbors : Nat) :
    SimilarIssuesResult :=
  match effectiveStacktraceString env event with
  | none => emptyStacktraceResult event
  | some s =>
    if s = "" then emptyStacktraceResult event
    else
      let request_data : SimilarIssuesEmbeddingsRequest :=
        { event_id := event.event_id
          hash := event.primary_hash
          project_id := event.project_id
          stacktrace := s
          exception_type :=
            match event.exception_type with
            | some t => if t = "" then none else some (env.filter_null_from_string t)
            | none => none
          k := num_neighbors
          referrer := "ingest"
          use_reranking := env.use_reranking }
      let event1 : Event := { event with stacktrace_string_field := none }
      match env.seer_response with
      | .error err =>
        { response := .error err, event := event1,
          trace := [.seerRequestSent request_data] }
      | .ok seer_results =>
        match seer_results with
        | [] =>
          { response := .ok ({ results := seer_results,
                               similarity_model_version := SEER_SIMILARITY_MODEL_VERSION },
                             none),
            event := event1,
            trace := [.seerRequestSent request_data,
                      .logInfo "get_seer_similar_issues.results"] }
        | top :: _ =>
          { response := .ok ({ results := seer_results,
                               similarity_model_version := SEER_SIMILARITY_MODEL_VERSION },
                             (env.grouphash_db.filter fun gh =>
                                gh.hash == top.parent_hash &&
                                gh.project_id == event.project_id).head?),
            event := event1,
            trace := [.seerRequestSent request_data,
                      .grouphashLookup top.parent_hash event.project_id,
                      .logInfo "get_seer_similar_issues.results"] }

/-- Result of `maybe_check_seer_for_matching_grouphash`: the returned
grouphash (or the escaping exception), the event, the (possibly updated)
grouphash list, and the effect trace. -/
structure MaybeCheckResult where
  result : Except PyError (Option GroupHash)
  event : Event
  grouphashes : List GroupHash
  trace : List Effect
deriving Repr

/-- In-place mutation of the metadata of the first grouphash in the list
whose `hash` equals `hashVal` (object identity of `grouphash_sent`). -/
def updateFirstGroupHashWith (hashVal : String) (newMeta : GroupHashMetadata) :
    List GroupHash → List GroupHash
  | [] => []
  | gh :: rest =>
    if gh.hash == hashVal then { gh with metadata := some newMeta } :: rest
    else gh :: updateFirstGroupHashWith hashVal newMeta rest

/-- `maybe_check_seer_for_matching_grouphash`.  The failure boundary wraps
only the `get_seer_similar_issues` call; the `[0]` indexing into the
filtered `all_grouphashes` raises an uncaught `IndexError` when no candidate
hash matches, as does the (unreachable through this orchestration)
`results[0]` access with a match but empty results. -/
def maybe_check_seer_for_matching_grouphash (env : Env) (event : Event)
    (variants : Variants) (all_grouphashes : List GroupHash) : MaybeCheckResult :=
  let gate := should_call_seer_for_grouping env event variants
  if gate.eligible then
    let seer := get_seer_similar_issues env gate.event 1
    match seer.response with
    | .error _ =>
      { result := .ok none, event := seer.event, grouphashes := all_grouphashes,
        trace := gate.trace ++ [record_did_call_seer_metric true "none"] ++
                 seer.trace ++
                 [.capturedException event.event_id event.project_id] }
    | .ok (seer_response_data, seer_matched_grouphash) =>
      match all_grouphashes.filter (fun gh => gh.hash == event.primary_hash) with
      | [] =>
        { result := .error .indexError, event := seer.event,
          grouphashes := all_grouphashes,
          trace := gate.trace ++ [record_did_call_seer_metric true "none"] ++
                   seer.trace }
      | grouphash_sent :: _ =>
        match grouphash_sent.metadata with
        | none =>
          { result := .ok seer_matched_grouphash, event := seer.event,
            grouphashes := all_grouphashes,
            trace := gate.trace ++ [record_did_call_seer_metric true "none"] ++
                     seer.trace }
        | some gh_metadata =>
          match seer_matched_grouphash with
          | none =>
            { result := .ok none, event := seer.event,
              grouphashes := updateFirstGroupHashWith event.primary_hash
                { gh_metadata with
                  seer_date_sent := some gh_metadata.date_added
                  seer_event_sent := some event.event_id
                  seer_model := some seer_response_data.similarity_model_version
                  seer_matched_grouphash := none
                  seer_match_distance := none } all_grouphashes,
              trace := gate.trace ++ [record_did_call_seer_metric true "none"] ++
                       seer.trace }
          | some matched =>
            match seer_response_data.results with
            | [] =>
              { result := .error .indexError, event := seer.event,
                grouphashes := all_grouphashes,
                trace := gate.trace ++ [record_did_call_seer_metric true "none"] ++
                         seer.trace }
            | top :: _ =>
              { result := .ok (some matched), event := seer.event,
                grouphashes := updateFirstGroupHashWith event.primary_hash
                  { gh_metadata with
                    seer_date_sent := some gh_metadata.date_added
                    seer_event_sent := some event.event_id
                    seer_model := some seer_response_data.similarity_model_version
                    seer_matched_grouphash := some matched.id
                    seer_match_distance := some top.stacktrace_distance } all_grouphashes,
                trace := gate.trace ++ [record_did_call_seer_metric true "none"] ++
                         seer.trace }
  else
    { result := .ok none, event := gate.event, grouphashes := all_grouphashes,
      trace := gate.trace }

/-- Names of the gate sub-checks that were entered, in trace order. -/
def evaluatedChecks (trace : List Effect) : List String :=
  trace.filterMap fun eff =>
    match eff with
    | .checkEvaluated n => some n
    | _ => none

/-- Keys passed to the rate-limiter backend's `is_limited`, in trace order. -/
def isLimitedCalls (trace : List Effect) : List String :=
  trace.filterMap fun eff =>
    match eff with
    | .isLimitedCall k => some k
    | _ => none

/-- Blocker tags of the `did_call_seer` metrics emitted, in trace order. -/
def didCallSeerBlockers (trace : List Effect) : List String :=
  trace.filterMap fun eff =>
    match eff with
    | .metricDidCallSeer _ b => some b
    | _ => none

/-- Outbound Seer requests recorded in the trace. -/
def seerRequests (trace : List Effect) : List SimilarIssuesEmbeddingsRequest :=
  trace.filterMap fun eff =>
    match eff with
    | .seerRequestSent r => some r
    | _ => none

/-- `GroupHash` ledger lookups recorded in the trace. -/
def grouphashLookups (trace : List Effect) : List (String × Nat) :=
  trace.filterMap fun eff =>
    match eff with
    | .grouphashLookup h p => some (h, p)
    | _ => none

lemma evaluatedChecks_append (a b : List Effect) :
    evaluatedChecks (a ++ b) = evaluatedChecks a ++ evaluatedChecks b :=
  List.filterMap_append a b _

lemma isLimitedCalls_append (a b : List Effect) :
    isLimitedCalls (a ++ b) = isLimitedCalls a ++ isLimitedCalls b :=
  List.filterMap_append a b _

lemma evaluatedChecks_content (env : Env) (event : Event) :
    evaluatedChecks (event_content_is_seer_eligible env event).2 =
      ["event_content_is_seer_eligible"] := by
  unfold event_content_is_seer_eligible
  split
  · rfl
  · split <;> rfl

lemma evaluatedChecks_project (env : Env) :
    evaluatedChecks (project_has_similarity_grouping_enabled env).2 =
      ["project_has_similarity_grouping_enabled"] := rfl

lemma evaluatedChecks_fingerprint (event : Event) (variants : Variants) :
    evaluatedChecks (has_customized_fingerprint event variants).2 =
      ["has_customized_fingerprint"] := by
  unfold has_customized_fingerprint
  split
  · split <;> rfl
  · split <;> rfl

lemma evaluatedChecks_frames (env : Env) :
    evaluatedChecks (has_too_many_contributing_frames env).2 =
      ["has_too_many_contributing_frames"] := by
  unfold has_too_many_contributing_frames
  split <;> rfl

lemma evaluatedChecks_killswitch (env : Env) :
    evaluatedChecks (killswitch_enabled_check env).2 = ["killswitch_enabled"] := rfl

lemma evaluatedChecks_circuit (env : Env) :
    evaluatedChecks (circuit_breaker_broken env).2 = ["circuit_breaker_broken"] := by
  unfold circuit_breaker_broken
  split <;> rfl

lemma evaluatedChecks_empty_stacktrace (env : Env) (event : Event) :
    evaluatedChecks (has_empty_stacktrace_string env event).2.2 =
      ["has_empty_stacktrace_string"] := by
  unfold has_empty_stacktrace_string
  split
  · rfl
  · split <;> rfl

lemma evaluatedChecks_ratelimit (env : Env) (project_id : Nat) :
    evaluatedChecks (ratelimiting_enabled env project_id).2 =
      ["ratelimiting_enabled"] := by
  unfold ratelimiting_enabled
  split
  · rfl
  · split <;> rfl

/-- The order in which the gate's sub-checks are entered, as the code has
it: the content and backfill checks are always both evaluated; afterwards
each firing check stops all later checks, in the order fingerprint,
contributing frames, killswitch, circuit breaker, stacktrace string,
rate limit. -/
def expectedGateCheckOrder (env : Env) (event : Event) (variants : Variants) :
    List String :=
  ["event_content_is_seer_eligible", "project_has_similarity_grouping_enabled"] ++
  (if !((event_content_is_seer_eligible env event).1 &&
        (project_has_similarity_grouping_enabled env).1) then [] else
   ["has_customized_fingerprint"] ++
   (if (has_customized_fingerprint event variants).1 then [] else
    ["has_too_many_contributing_frames"] ++
    (if (has_too_many_contributing_frames env).1 then [] else
     ["killswitch_enabled"] ++
     (if (killswitch_enabled_check env).1 then [] else
      ["circuit_breaker_broken"] ++
      (if (circuit_breaker_broken env).1 then [] else
       ["has_empty_stacktrace_string"] ++
       (if (has_empty_stacktrace_string env event).1 then [] else
        ["ratelimiting_enabled"]))))))

/-- C1 (amended): the gate evaluates the content check and the backfill
check unconditionally (both are entered on every run, so a content failure
does not prevent the backfill check from being evaluated), and then runs the
remaining checks as a short-circuiting chain in the order customized
fingerprint, too-many-contributing-frames, killswitch, circuit breaker,
empty stacktrace string, rate limit — each firing check preventing the
evaluation of every later one. -/
theorem gate_check_order_amended (env : Env) (event : Event) (variants : Variants) :
    evaluatedChecks (should_call_seer_for_grouping env event variants).trace =
      expectedGateCheckOrder env event variants := by
  unfold should_call_seer_for_grouping expectedGateCheckOrder
  repeat' split
  all_goals simp_all [evaluatedChecks_append, evaluatedChecks_content,
    evaluatedChecks_project, evaluatedChecks_fingerprint, evaluatedChecks_frames,
    evaluatedChecks_killswitch, evaluatedChecks_circuit,
    evaluatedChecks_empty_stacktrace, evaluatedChecks_ratelimit]

/-- An environment on which every gate check passes and the Seer call
returns an empty result list. -/
def passEnv : Env :=
  { event_content_has_stacktrace := true
    seer_ineligible_platforms := ["other"]
    backfill_completed := true
    too_many_frames := false
    killswitch_enabled := false
    circuit_allows_request := true
    stacktrace_string := some "division by zero"
    is_limited := fun _ => false
    use_reranking := false
    filter_null_from_string := fun s => s
    seer_response := .ok []
    grouphash_db := [] }

/-- A variants dict with no custom or built-in fingerprint variant. -/
def noCustomVariants : Variants :=
  { custom_fingerprint := none, built_in_fingerprint := none }

/-- An event with a pure-default fingerprint. -/
def baseEvent : Event :=
  { event_id := "event1"
    project_id := 11
    platform := "python"
    fingerprint := [DEFAULT_FINGERPRINT_MARKER]
    primary_hash := "hashA"
    exception_type := some "ZeroDivisionError"
    stacktrace_string_field := none }

/-- `baseEvent` with a hybrid fingerprint. -/
def hybridEvent : Event :=
  { baseEvent with fingerprint := [DEFAULT_FINGERPRINT_MARKER, "extra-value"] }

/-- `passEnv` with an over-threshold contributing-frame count. -/
def framesEnv : Env := { passEnv with too_many_frames := true }

/-- `passEnv` whose event content has no usable stacktrace. -/
def noStacktraceEnv : Env := { passEnv with event_content_has_stacktrace := false }

/-- C1 is false of the code on two counts, each witnessed by a concrete
input: (a) with a hybrid fingerprint and too many contributing frames, the
claimed order evaluates the frames check (its check 3) first and so would
never reach the fingerprint check, yet the code records the
`hybrid-fingerprint` blocker and never enters the frames check; (b) with no
usable stacktrace, the claimed short-circuit would stop before the backfill
check (its check 2), yet the code still evaluates it. -/
theorem gate_check_order_cex :
    (Effect.metricDidCallSeer false "hybrid-fingerprint" ∈
        (should_call_seer_for_grouping framesEnv hybridEvent noCustomVariants).trace ∧
     Effect.checkEvaluated "has_too_many_contributing_frames" ∉
        (should_call_seer_for_grouping framesEnv hybridEvent noCustomVariants).trace) ∧
    ((event_content_is_seer_eligible noStacktraceEnv baseEvent).1 = false ∧
     Effect.checkEvaluated "project_has_similarity_grouping_enabled" ∈
        (should_call_seer_for_grouping noStacktraceEnv baseEvent noCustomVariants).trace) := by
  decide

lemma isLimitedCalls_content (env : Env) (event : Event) :
    isLimitedCalls (event_content_is_seer_eligible env event).2 = [] := by
  unfold event_content_is_seer_eligible
  split
  · rfl
  · split <;> rfl

lemma isLimitedCalls_project (env : Env) :
    isLimitedCalls (project_has_similarity_grouping_enabled env).2 = [] := rfl

lemma isLimitedCalls_fingerprint (event : Event) (variants : Variants) :
    isLimitedCalls (has_customized_fingerprint event variants).2 = [] := by
  unfold has_customized_fingerprint
  split
  · split <;> rfl
  · split <;> rfl

lemma isLimitedCalls_frames (env : Env) :
    isLimitedCalls (has_too_many_contributing_frames env).2 = [] := by
  unfold has_too_many_contributing_frames
  split <;> rfl

lemma isLimitedCalls_killswitch (env : Env) :
    isLimitedCalls (killswitch_enabled_check env).2 = [] := rfl

lemma isLimitedCalls_circuit (env : Env) :
    isLimitedCalls (circuit_breaker_broken env).2 = [] := by
  unfold circuit_breaker_broken
  split <;> rfl

lemma isLimitedCalls_empty_stacktrace (env : Env) (event : Event) :
    isLimitedCalls (has_empty_stacktrace_string env event).2.2 = [] := by
  unfold has_empty_stacktrace_string
  split
  · rfl
  · split <;> rfl

/-- C2: whenever one of the checks preceding the rate-limit check fails —
no usable stacktrace or ineligible platform, missing backfill flag,
customized fingerprint, excess contributing frames, killswitch, open
circuit breaker, or empty stacktrace string — the rate-limiter backend's
`is_limited` is never consulted, so the failed event consumes no rate-limit
budget. -/
theorem rate_limit_check_is_last (env : Env) (event : Event) (variants : Variants)
    (h : (event_content_is_seer_eligible env event).1 = false ∨
         (project_has_similarity_grouping_enabled env).1 = false ∨
         (has_customized_fingerprint event variants).1 = true ∨
         (has_too_many_contributing_frames env).1 = true ∨
         (killswitch_enabled_check env).1 = true ∨
         (circuit_breaker_broken env).1 = true ∨
         (has_empty_stacktrace_string env event).1 = true) :
    isLimitedCalls (should_call_seer_for_grouping env event variants).trace = [] := by
  unfold should_call_seer_for_grouping
  repeat' split
  all_goals simp_all [isLimitedCalls_append, isLimitedCalls_content,
    isLimitedCalls_project, isLimitedCalls_fingerprint, isLimitedCalls_frames,
    isLimitedCalls_killswitch, isLimitedCalls_circuit,
    isLimitedCalls_empty_stacktrace]

/-- `passEnv` with an active killswitch. -/
def killswitchEnv : Env := { passEnv with killswitch_enabled := true }

/-- Concrete run of C2: with the killswitch active, the limiter backend is
never consulted. -/
theorem rate_limit_check_is_last_witness :
    isLimitedCalls
      (should_call_seer_for_grouping killswitchEnv baseEvent noCustomVariants).trace = [] :=
  rate_limit_check_is_last killswitchEnv baseEvent noCustomVariants
    (Or.inr (Or.inr (Or.inr (Or.inr (Or.inl (by decide))))))

lemma has_empty_stacktrace_false_char (env : Env) (event : Event)
    (h : (has_empty_stacktrace_string env event).1 = false) :
    ∃ s, env.stacktrace_string = some s ∧ s ≠ "" ∧
      (has_empty_stacktrace_string env event).2.1 =
        { event with stacktrace_string_field := some s } := by
  unfold has_empty_stacktrace_string at h ⊢
  cases henv : env.stacktrace_string with
  | none => simp_all
  | some s =>
    by_cases hs : s = ""
    · simp_all
    · exact ⟨s, by simp_all, hs, by simp_all⟩

lemma gate_pass_empty_check (env : Env) (event : Event) (variants : Variants)
    (h : (should_call_seer_for_grouping env event variants).eligible = true) :
    (has_empty_stacktrace_string env event).1 = false ∧
    (should_call_seer_for_grouping env event variants).event =
      (has_empty_stacktrace_string env event).2.1 := by
  unfold should_call_seer_for_grouping at h ⊢
  repeat' split at h
  all_goals simp_all

lemma gate_pass_event_cached (env : Env) (event : Event) (variants : Variants)
    (h : (should_call_seer_for_grouping env event variants).eligible = true) :
    ∃ s, env.stacktrace_string = some s ∧ s ≠ "" ∧
      (should_call_seer_for_grouping env event variants).event =
        { event with stacktrace_string_field := some s } := by
  obtain ⟨h1, h2⟩ := gate_pass_empty_check env event variants h
  obtain ⟨s, hs, hne, hev⟩ := has_empty_stacktrace_false_char env event h1
  exact ⟨s, hs, hne, by rw [h2, hev]⟩

/-- The ledger lookup `get_seer_similar_issues` performs for a result list:
`None` on an empty list, else the first stored row matching the top
result's parent hash in the given project. -/
def seerMatchLookup (env : Env) (rs : List SeerSimilarIssueData) (project_id : Nat) :
    Option GroupHash :=
  match rs with
  | [] => none
  | top :: _ =>
    (env.grouphash_db.filter fun gh =>
      gh.hash == top.parent_hash && gh.project_id == project_id).head?

lemma get_seer_cached_response (env : Env) (event : Event) (s : String) (hne : s ≠ "") :
    (get_seer_similar_issues env
        { event with stacktrace_string_field := some s } 1).response =
      match env.seer_response with
      | .error err => .error err
      | .ok rs => .ok ({ results := rs,
                         similarity_model_version := SEER_SIMILARITY_MODEL_VERSION },
                       seerMatchLookup env rs event.project_id) := by
  unfold get_seer_similar_issues effectiveStacktraceString
  cases hresp : env.seer_response with
  | error err => simp [hne, hresp]
  | ok rs => cases rs <;> simp [hne, hresp, seerMatchLookup]

lemma get_seer_cached_event (env : Env) (event : Event) (s : String) (hne : s ≠ "") :
    (get_seer_similar_issues env
        { event with stacktrace_string_field := some s } 1).event =
      { event with stacktrace_string_field := none } := by
  unfold get_seer_similar_issues effectiveStacktraceString
  cases hresp : env.seer_response with
  | error err => simp [hne, hresp]
  | ok rs => cases rs <;> simp [hne, hresp]

/-- C3: when the gate passes and `get_seer_similar_issues` raises, the
orchestrator catches the exception, reports it tagged with the event and
project identifiers, returns no match, and leaves every ledger entry
untouched. -/
theorem seer_exception_caught (env : Env) (event : Event) (variants : Variants)
    (all_grouphashes : List GroupHash)
    (hgate : (should_call_seer_for_grouping env event variants).eligible = true)
    (herr : env.seer_response = .error ()) :
    (maybe_check_seer_for_matching_grouphash env event variants
        all_grouphashes).result = .ok none ∧
    (maybe_check_seer_for_matching_grouphash env event variants
        all_grouphashes).grouphashes = all_grouphashes ∧
    Effect.capturedException event.event_id event.project_id ∈
      (maybe_check_seer_for_matching_grouphash env event variants
        all_grouphashes).trace := by
  obtain ⟨s, hs, hne, hev⟩ := gate_pass_event_cached env event variants hgate
  have hresp := get_seer_cached_response env event s hne
  rw [herr] at hresp
  unfold maybe_check_seer_for_matching_grouphash
  simp [hgate, hev, hresp]

/-- `passEnv` whose Seer call raises. -/
def errEnv : Env := { passEnv with seer_response := .error () }

/-- A stored metadata block with only a creation timestamp. -/
def ghMetaA : GroupHashMetadata :=
  { date_added := 100, seer_date_sent := none, seer_event_sent := none,
    seer_model := none, seer_matched_grouphash := none, seer_match_distance := none }

/-- A ledger entry for `baseEvent`'s primary hash. -/
def ghA : GroupHash :=
  { id := 1, hash := "hashA", project_id := 11, metadata := some ghMetaA }

/-- Concrete run of C3: the gate passes, the remote call raises, the
orchestrator absorbs it. -/
theorem seer_exception_caught_witness :
    (maybe_check_seer_for_matching_grouphash errEnv baseEvent noCustomVariants
        [ghA]).result = .ok none ∧
    (maybe_check_seer_for_matching_grouphash errEnv baseEvent noCustomVariants
        [ghA]).grouphashes = [ghA] ∧
    Effect.capturedException baseEvent.event_id baseEvent.project_id ∈
      (maybe_check_seer_for_matching_grouphash errEnv baseEvent noCustomVariants
        [ghA]).trace :=
  seer_exception_caught errEnv baseEvent noCustomVariants [ghA] (by decide) rfl

/-- The in-place metadata update performed on `grouphash_sent`
(spec 4.5 step 5): timestamp equal to the entry's own creation timestamp,
the triggering event id, the model version, the matched entry reference (or
none), and the top result's stacktrace distance exactly when a match
exists. -/
def seerUpdatedMetadata (m : GroupHashMetadata) (event_id : String)
    (matched : Option GroupHash) (rs : List SeerSimilarIssueData) :
    GroupHashMetadata :=
  { m with
    seer_date_sent := some m.date_added
    seer_event_sent := some event_id
    seer_model := some SEER_SIMILARITY_MODEL_VERSION
    seer_matched_grouphash := matched.map GroupHash.id
    seer_match_distance :=
      match matched, rs with
      | some _, top :: _ => some top.stacktrace_distance
      | _, _ => none }

lemma maybe_check_pass_ok_result (env : Env) (event : Event) (variants : Variants)
    (all_grouphashes : List GroupHash) (rs : List SeerSimilarIssueData)
    (hgate : (should_call_seer_for_grouping env event variants).eligible = true)
    (hok : env.seer_response = .ok rs) :
    (maybe_check_seer_for_matching_grouphash env event variants
        all_grouphashes).result =
      match all_grouphashes.filter (fun gh => gh.hash == event.primary_hash) with
      | [] => .error .indexError
      | _ :: _ => .ok (seerMatchLookup env rs event.project_id) := by
  obtain ⟨s, hs, hne, hev⟩ := gate_pass_event_cached env event variants hgate
  have hresp := get_seer_cached_response env event s hne
  rw [hok] at hresp
  unfold maybe_check_seer_for_matching_grouphash
  simp only [hgate, hev, hresp] at hresp ⊢
  cases hfil : all_grouphashes.filter (fun gh => gh.hash == event.primary_hash) with
  | nil => simp [hgate, hev, hresp, hfil]
  | cons gh tail =>
    cases hmeta : gh.metadata with
    | none => simp [hgate, hev, hresp, hfil, hmeta]
    | some m =>
      cases rs with
      | nil => simp [hgate, hev, hresp, hfil, hmeta, seerMatchLookup]
      | cons top rest =>
        cases hl : (env.grouphash_db.filter fun g =>
            g.hash == top.parent_hash && g.project_id == event.project_id).head? with
        | none => simp [hgate, hev, hresp, hfil, hmeta, seerMatchLookup, hl]
        | some mh => simp [hgate, hev, hresp, hfil, hmeta, seerMatchLookup, hl]

lemma maybe_check_pass_ok_grouphashes (env : Env) (event : Event)
    (variants : Variants) (all_grouphashes : List GroupHash)
    (rs : List SeerSimilarIssueData)
    (hgate : (should_call_seer_for_grouping env event variants).eligible = true)
    (hok : env.seer_response = .ok rs) :
    (maybe_check_seer_for_matching_grouphash env event variants
        all_grouphashes).grouphashes =
      match all_grouphashes.filter (fun gh => gh.hash == event.primary_hash) with
      | [] => all_grouphashes
      | gh :: _ =>
        match gh.metadata with
        | none => all_grouphashes
        | some m =>
          updateFirstGroupHashWith event.primary_hash
            (seerUpdatedMetadata m event.event_id
              (seerMatchLookup env rs event.project_id) rs) all_grouphashes := by
  obtain ⟨s, hs, hne, hev⟩ := gate_pass_event_cached env event variants hgate
  have hresp := get_seer_cached_response env event s hne
  rw [hok] at hresp
  unfold maybe_check_seer_for_matching_grouphash
  simp only [hgate, hev, hresp] at hresp ⊢
  cases hfil : all_grouphashes.filter (fun gh => gh.hash == event.primary_hash) with
  | nil => simp [hgate, hev, hresp, hfil]
  | cons gh tail =>
    cases hmeta : gh.metadata with
    | none => simp [hgate, hev, hresp, hfil, hmeta]
    | some m =>
      cases rs with
      | nil =>
        simp [hgate, hev, hresp, hfil, hmeta, seerMatchLookup, seerUpdatedMetadata]
      | cons top rest =>
        cases hl : (env.grouphash_db.filter fun g =>
            g.hash == top.parent_hash && g.project_id == event.project_id).head? with
        | none =>
          simp [hgate, hev, hresp, hfil, hmeta, seerMatchLookup, seerUpdatedMetadata, hl]
        | some mh =>
          simp [hgate, hev, hresp, hfil, hmeta, seerMatchLookup, seerUpdatedMetadata, hl]

/-- C4 is false of the code: with the gate passing, the remote call
succeeding, and an empty candidate grouphash list, the function raises an
uncaught `IndexError` (the `[0]` indexing into the filtered list sits
outside the failure boundary) rather than logging a warning and
returning. -/
theorem no_matching_grouphash_raises_cex :
    (maybe_check_seer_for_matching_grouphash passEnv baseEvent noCustomVariants
        []).result = .error .indexError := by
  rfl

/-- C4 (amended): when the gate passes and the remote call succeeds,
`maybe_check_seer_for_matching_grouphash` returns without raising whenever
some candidate ledger entry carries the event's primary content hash; but
when no candidate does, the unexpected absence is NOT absorbed — the
function raises an `IndexError` out to the caller (nothing is logged). -/
theorem maybe_check_raise_behavior (env : Env) (event : Event)
    (variants : Variants) (all_grouphashes : List GroupHash)
    (rs : List SeerSimilarIssueData)
    (hgate : (should_call_seer_for_grouping env event variants).eligible = true)
    (hok : env.seer_response = .ok rs) :
    ((∀ gh ∈ all_grouphashes, gh.hash ≠ event.primary_hash) →
      (maybe_check_seer_for_matching_grouphash env event variants
          all_grouphashes).result = .error .indexError) ∧
    ((∃ gh ∈ all_grouphashes, gh.hash = event.primary_hash) →
      ∃ o, (maybe_check_seer_for_matching_grouphash env event variants
          all_grouphashes).result = .ok o) := by
  have hres := maybe_check_pass_ok_result env event variants all_grouphashes rs hgate hok
  constructor
  · intro habsent
    have hfil : all_grouphashes.filter (fun gh => gh.hash == event.primary_hash) = [] := by
      rw [List.filter_eq_nil_iff]
      intro gh hmem
      simp [habsent gh hmem]
    rw [hres, hfil]
  · rintro ⟨gh, hmem, hhash⟩
    cases hfil : all_grouphashes.filter (fun gh => gh.hash == event.primary_hash) with
    | nil =>
      exfalso
      have : gh ∈ all_grouphashes.filter (fun gh => gh.hash == event.primary_hash) := by
        rw [List.mem_filter]
        exact ⟨hmem, by simp [hhash]⟩
      rw [hfil] at this
      exact absurd this (List.not_mem_nil gh)
    | cons g tail =>
      exact ⟨seerMatchLookup env rs event.project_id, by rw [hres, hfil]⟩

/-- Concrete run of the amended C4: with a matching candidate present the
call returns, with no candidates it raises. -/
theorem maybe_check_raise_behavior_witness :
    (∃ o, (maybe_check_seer_for_matching_grouphash passEnv baseEvent noCustomVariants
        [ghA]).result = .ok o) ∧
    (maybe_check_seer_for_matching_grouphash passEnv baseEvent noCustomVariants
        []).result = .error .indexError :=
  ⟨(maybe_check_raise_behavior passEnv baseEvent noCustomVariants [ghA] []
      (by decide) rfl).2 ⟨ghA, by decide, by decide⟩,
   (maybe_check_raise_behavior passEnv baseEvent noCustomVariants [] []
      (by decide) rfl).1 (by decide)⟩

/-- C5: the fingerprint-customization check classifies a fingerprint list
as follows — a pure-default list passes; a list containing the default
marker together with any other value is rejected with the
`hybrid-fingerprint` blocker; and, the marker being absent, a custom or
built-in fingerprint variant among the variants (custom taking precedence)
causes rejection with that variant's kind as the blocker. -/
theorem fingerprint_customization_classification (event : Event)
    (variants : Variants) :
    (event.fingerprint = [DEFAULT_FINGERPRINT_MARKER] →
      (has_customized_fingerprint event variants).1 = false) ∧
    (event.fingerprint.contains DEFAULT_FINGERPRINT_MARKER = true →
      event.fingerprint.length ≠ 1 →
      (has_customized_fingerprint event variants).1 = true ∧
      record_did_call_seer_metric false "hybrid-fingerprint" ∈
        (has_customized_fingerprint event variants).2) ∧
    (∀ fv, event.fingerprint.contains DEFAULT_FINGERPRINT_MARKER = false →
      (variants.custom_fingerprint <|> variants.built_in_fingerprint) = some fv →
      (has_customized_fingerprint event variants).1 = true ∧
      record_did_call_seer_metric false fv.type ∈
        (has_customized_fingerprint event variants).2) := by
  refine ⟨?_, ?_, ?_⟩
  · intro h
    unfold has_customized_fingerprint
    simp [h, DEFAULT_FINGERPRINT_MARKER]
  · intro hmem hlen
    have hmem2 : DEFAULT_FINGERPRINT_MARKER ∈ event.fingerprint := by simpa using hmem
    unfold has_customized_fingerprint
    simp [hmem2, hlen, record_did_call_seer_metric]
  · intro fv habs hv
    have habs2 : DEFAULT_FINGERPRINT_MARKER ∉ event.fingerprint := by simpa using habs
    unfold has_customized_fingerprint
    simp [habs2, hv, record_did_call_seer_metric]

/-- An event whose fingerprint is fully custom. -/
def customEvent : Event := { baseEvent with fingerprint := ["my-own-rule"] }

/-- A variants dict carrying a custom fingerprint variant. -/
def customVariants : Variants :=
  { custom_fingerprint := some { type := "custom_fingerprint" },
    built_in_fingerprint := none }

/-- Concrete runs of C5 on a pure-default, a hybrid and a fully customized
fingerprint. -/
theorem fingerprint_customization_classification_witness :
    (has_customized_fingerprint baseEvent noCustomVariants).1 = false ∧
    (has_customized_fingerprint hybridEvent noCustomVariants).1 = true ∧
    (has_customized_fingerprint customEvent customVariants).1 = true :=
  ⟨(fingerprint_customization_classification baseEvent noCustomVariants).1 rfl,
   ((fingerprint_customization_classification hybridEvent noCustomVariants).2.1
      (by decide) (by decide)).1,
   ((fingerprint_customization_classification customEvent customVariants).2.2
      { type := "custom_fingerprint" } (by decide) rfl).1⟩

lemma get_seer_nonempty_response (env : Env) (event : Event) (s : String)
    (top : SeerSimilarIssueData) (rest : List SeerSimilarIssueData)
    (hs : effectiveStacktraceString env event = some s) (hne : s ≠ "")
    (hresp : env.seer_response = .ok (top :: rest)) :
    (get_seer_similar_issues env event 1).response =
      .ok ({ results := top :: rest,
             similarity_model_version := SEER_SIMILARITY_MODEL_VERSION },
           (env.grouphash_db.filter fun gh =>
              gh.hash == top.parent_hash && gh.project_id == event.project_id).head?) := by
  unfold get_seer_similar_issues
  rw [hs]
  simp [hne, hresp]

/-- C6: with a non-empty result list from the remote service,
`get_seer_similar_issues` returns as the match a stored ledger entry whose
hash equals the top result's parent hash within the event's own project
(whenever one exists), and none when no such entry exists; with an empty
result list the match is none and no ledger lookup is performed. -/
theorem similar_issues_match_selection (env : Env) (event : Event) (s : String)
    (hs : effectiveStacktraceString env event = some s) (hne : s ≠ "") :
    (∀ top rest, env.seer_response = .ok (top :: rest) →
      ∃ md m, (get_seer_similar_issues env event 1).response = .ok (md, m) ∧
        ((∃ gh ∈ env.grouphash_db,
            gh.hash = top.parent_hash ∧ gh.project_id = event.project_id) →
          ∃ gh, m = some gh ∧ gh ∈ env.grouphash_db ∧
            gh.hash = top.parent_hash ∧ gh.project_id = event.project_id) ∧
        ((∀ gh ∈ env.grouphash_db,
            ¬(gh.hash = top.parent_hash ∧ gh.project_id = event.project_id)) →
          m = none)) ∧
    (env.seer_response = .ok [] →
      (get_seer_similar_issues env event 1).response =
        .ok ({ results := [],
               similarity_model_version := SEER_SIMILARITY_MODEL_VERSION }, none) ∧
      grouphashLookups (get_seer_similar_issues env event 1).trace = []) := by
  constructor
  · intro top rest hresp
    have hr := get_seer_nonempty_response env event s top rest hs hne hresp
    refine ⟨_, _, hr, ?_, ?_⟩
    · rintro ⟨gh, hmem, hh, hp⟩
      cases hfl : env.grouphash_db.filter (fun g =>
          g.hash == top.parent_hash && g.project_id == event.project_id) with
      | nil =>
        exfalso
        have hin : gh ∈ env.grouphash_db.filter (fun g =>
            g.hash == top.parent_hash && g.project_id == event.project_id) :=
          List.mem_filter.mpr ⟨hmem, by simp [hh, hp]⟩
        rw [hfl] at hin
        exact absurd hin (List.not_mem_nil gh)
      | cons g t =>
        have hgmem : g ∈ env.grouphash_db.filter (fun g =>
            g.hash == top.parent_hash && g.project_id == event.project_id) := by
          rw [hfl]; exact List.mem_cons_self g t
        have hgprop := List.mem_filter.mp hgmem
        have hght : g.hash = top.parent_hash ∧ g.project_id = event.project_id := by
          simpa using hgprop.2
        exact ⟨g, rfl, hgprop.1, hght.1, hght.2⟩
    · intro habsent
      have hfl : env.grouphash_db.filter (fun g =>
          g.hash == top.parent_hash && g.project_id == event.project_id) = [] := by
        rw [List.filter_eq_nil_iff]
        intro g hg
        simpa using habsent g hg
      rw [hfl]
      rfl
  · intro hresp
    constructor
    · unfold get_seer_similar_issues
      rw [hs]
      simp [hne, hresp]
    · unfold get_seer_similar_issues
      rw [hs]
      simp [hne, hresp, grouphashLookups]

/-- The top Seer result used in concrete runs. -/
def seerTop : SeerSimilarIssueData :=
  { parent_hash := "hashP", stacktrace_distance := 3, should_group := true }

/-- A stored ledger entry carrying `seerTop`'s parent hash. -/
def ghParent : GroupHash :=
  { id := 2, hash := "hashP", project_id := 11, metadata := none }

/-- `passEnv` whose Seer call returns one result whose parent hash is
stored in the ledger. -/
def matchEnv : Env :=
  { passEnv with seer_response := .ok [seerTop], grouphash_db := [ghParent] }

/-- Concrete run of C6: the top result's parent hash resolves to the stored
entry. -/
theorem similar_issues_match_selection_witness :
    ∃ md m, (get_seer_similar_issues matchEnv baseEvent 1).response = .ok (md, m) ∧
      ∃ gh, m = some gh ∧ gh ∈ matchEnv.grouphash_db ∧
        gh.hash = seerTop.parent_hash ∧ gh.project_id = baseEvent.project_id := by
  obtain ⟨md, m, hr, hpos, _⟩ :=
    (similar_issues_match_selection matchEnv baseEvent "division by zero" rfl
      (by decide)).1 seerTop [] rfl
  exact ⟨md, m, hr, hpos ⟨ghParent, by decide, rfl, rfl⟩⟩

/-- C7: every successful return of `get_seer_similar_issues` carries the
similarity-model-version tag in its metadata; on a made call the metadata
carries the full result list; and on an empty effective stacktrace string
the function short-circuits to empty-results metadata with version present,
no match, and no outbound request. -/
theorem similar_issues_metadata_shape (env : Env) (event : Event) (k : Nat) :
    (∀ md m, (get_seer_similar_issues env event k).response = .ok (md, m) →
      md.similarity_model_version = SEER_SIMILARITY_MODEL_VERSION) ∧
    (∀ s rs, effectiveStacktraceString env event = some s → s ≠ "" →
      env.seer_response = .ok rs →
      ∀ md m, (get_seer_similar_issues env event k).response = .ok (md, m) →
        md.results = rs) ∧
    ((effectiveStacktraceString env event = none ∨
      effectiveStacktraceString env event = some "") →
      (get_seer_similar_issues env event k).response =
        .ok ({ results := [],
               similarity_model_version := SEER_SIMILARITY_MODEL_VERSION }, none) ∧
      seerRequests (get_seer_similar_issues env event k).trace = []) := by
  refine ⟨?_, ?_, ?_⟩
  · intro md m h
    unfold get_seer_similar_issues emptyStacktraceResult at h
    cases hs : effectiveStacktraceString env event with
    | none =>
      rw [hs] at h
      simp at h
      rw [← h.1]
    | some s =>
      rw [hs] at h
      by_cases hempty : s = ""
      · simp [hempty] at h
        rw [← h.1]
      · cases hr : env.seer_response with
        | error err => simp [hempty, hr] at h
        | ok rs =>
          cases rs with
          | nil =>
            simp [hempty, hr] at h
            rw [← h.1]
          | cons top rest =>
            simp [hempty, hr] at h
            rw [← h.1]
  · intro s rs hs hne hr md m h
    unfold get_seer_similar_issues at h
    rw [hs] at h
    cases rs with
    | nil =>
      simp [hne, hr] at h
      rw [← h.1]
    | cons top rest =>
      simp [hne, hr] at h
      rw [← h.1]
  · intro h
    rcases h with hs | hs
    all_goals constructor
    all_goals unfold get_seer_similar_issues emptyStacktraceResult
    all_goals rw [hs]
    all_goals simp [seerRequests]

/-- An event whose stacktrace-string computation came back empty. -/
def emptyStacktraceEnv : Env := { passEnv with stacktrace_string := some "" }

/-- Concrete run of C7: the empty-stacktrace short-circuit returns empty
results with the model version and no request, and a made call carries the
result list and the version. -/
theorem similar_issues_metadata_shape_witness :
    ((get_seer_similar_issues emptyStacktraceEnv baseEvent 1).response =
      .ok ({ results := [],
             similarity_model_version := SEER_SIMILARITY_MODEL_VERSION }, none) ∧
     seerRequests (get_seer_similar_issues emptyStacktraceEnv baseEvent 1).trace = []) ∧
    (∀ md m, (get_seer_similar_issues matchEnv baseEvent 1).response = .ok (md, m) →
      md.results = [seerTop]) :=
  ⟨(similar_issues_metadata_shape emptyStacktraceEnv baseEvent 1).2.2 (Or.inr rfl),
   fun md m h =>
     (similar_issues_metadata_shape matchEnv baseEvent 1).2.1 "division by zero"
       [seerTop] rfl (by decide) rfl md m h⟩

/-- C8: when the gate passes and the remote call succeeds, the candidate
entry selected for the event's primary hash is updated in place — call
timestamp equal to the entry's own `date_added`, the triggering event id,
the model version, the matched entry reference (or none), and the top
result's stacktrace distance exactly when a match exists — while an entry
without a metadata block triggers no update at all. -/
theorem grouphash_metadata_update (env : Env) (event : Event) (variants : Variants)
    (all_grouphashes : List GroupHash) (rs : List SeerSimilarIssueData)
    (gh : GroupHash) (tail : List GroupHash)
    (hgate : (should_call_seer_for_grouping env event variants).eligible = true)
    (hok : env.seer_response = .ok rs)
    (hfil : all_grouphashes.filter (fun g => g.hash == event.primary_hash) =
      gh :: tail) :
    (gh.metadata = none →
      (maybe_check_seer_for_matching_grouphash env event variants
          all_grouphashes).grouphashes = all_grouphashes) ∧
    (∀ m, gh.metadata = some m →
      (maybe_check_seer_for_matching_grouphash env event variants
          all_grouphashes).grouphashes =
        updateFirstGroupHashWith event.primary_hash
          (seerUpdatedMetadata m event.event_id
            (seerMatchLookup env rs event.project_id) rs) all_grouphashes) := by
  have h := maybe_check_pass_ok_grouphashes env event variants all_grouphashes rs
    hgate hok
  rw [hfil] at h
  constructor
  · intro hnone
    rw [h]
    simp [hnone]
  · intro m hm
    rw [h]
    simp [hm]

/-- Concrete run of C8: one candidate with a metadata block, one result,
one stored parent entry; the candidate's metadata is rewritten as
specified. -/
theorem grouphash_metadata_update_witness :
    (maybe_check_seer_for_matching_grouphash matchEnv baseEvent noCustomVariants
        [ghA]).grouphashes =
      updateFirstGroupHashWith baseEvent.primary_hash
        (seerUpdatedMetadata ghMetaA baseEvent.event_id
          (seerMatchLookup matchEnv [seerTop] baseEvent.project_id) [seerTop])
        [ghA] :=
  (grouphash_metadata_update matchEnv baseEvent noCustomVariants [ghA] [seerTop]
    ghA [] (by decide) rfl (by decide)).2 ghMetaA rfl

/-- C9: the rate-limit check consults the global key first, consults the
per-project key exactly when the global key is not limited, trips whenever
either scope is limited, and records the scope that tripped with its own
blocker tag. -/
theorem rate_limit_global_before_project (env : Env) (project_id : Nat) :
    isLimitedCalls (ratelimiting_enabled env project_id).2 =
      (if env.is_limited seerGlobalRateLimitKey then [seerGlobalRateLimitKey]
       else [seerGlobalRateLimitKey, seerProjectRateLimitKey project_id]) ∧
    (ratelimiting_enabled env project_id).1 =
      (env.is_limited seerGlobalRateLimitKey ||
       env.is_limited (seerProjectRateLimitKey project_id)) ∧
    didCallSeerBlockers (ratelimiting_enabled env project_id).2 =
      (if env.is_limited seerGlobalRateLimitKey then ["global-rate-limit"]
       else if env.is_limited (seerProjectRateLimitKey project_id) then
         ["project-rate-limit"]
       else []) := by
  cases hg : env.is_limited seerGlobalRateLimitKey <;>
  cases hp : env.is_limited (seerProjectRateLimitKey project_id) <;>
  simp [ratelimiting_enabled, isLimitedCalls, didCallSeerBlockers,
    record_did_call_seer_metric, hg, hp]

/-- `passEnv` whose global rate limit is tripped. -/
def globalLimitEnv : Env :=
  { passEnv with is_limited := fun k => k == seerGlobalRateLimitKey }

/-- C10 is violated by the code: when every check up to the stacktrace
check passes (caching the derived stacktrace string on the event) and the
rate-limit check then fails, `maybe_check_seer_for_matching_grouphash`
returns with the scratch field still present on the event — the pop only
happens inside `get_seer_similar_issues`, which is never reached. -/
theorem stacktrace_string_leak_on_ratelimit :
    (maybe_check_seer_for_matching_grouphash globalLimitEnv baseEvent
        noCustomVariants []).result = .ok none ∧
    baseEvent.stacktrace_string_field = none ∧
    (maybe_check_seer_for_matching_grouphash globalLimitEnv baseEvent
        noCustomVariants []).event.stacktrace_string_field =
      some "division by zero" :=
  ⟨rfl, rfl, rfl⟩
